import Mathlib

/-!
# Verification of the mpi-sppy xhat bound-spoke coordination logic

Shallow embedding of the candidate-cycling scheduler (`ScenarioCycler`),
the inner-bound improvement rule (`XhatShuffleInnerBound.try_scenario`),
the start-up configuration and probability-consistency checks of the two
bound spokes (`XhatShuffleInnerBound.xhatbase_prep`,
`XhatSpecificInnerBound.ib_prep`), and one tick of each spoke main loop,
from `mpisppy/cylinders/xhataphshuffle_bounder.py` and
`mpisppy/cylinders/xhatspecific_bounder.py`.

Python `float` objective values are modelled as rationals extended with
`+inf` and `-inf` (`WithBot (WithTop ℚ)`); Python `None` is `Option.none`;
the Python `set` `_scenarios_this_epoch` (which may hold `None` as well as
scenario-name strings, since the `best` property getter adds `self._best`,
initially `None`) is a `Finset (Option String)`.
-/

/-- Python float values used as objective bounds: rationals together with
`+inf` (the `⊤` of `WithTop`) and `-inf` (the `⊥` of `WithBot`). -/
abbrev PyFloat : Type := WithBot (WithTop ℚ)

/-- Embed a finite rational objective value into `PyFloat`. -/
def PyFloat.ofRat (q : ℚ) : PyFloat := ((q : WithTop ℚ) : PyFloat)

namespace ScenarioCycler

/-- State of `ScenarioCycler`
(`mpisppy/cylinders/xhataphshuffle_bounder.py`, lines 173-208):
`_all_scenario_list`, `_num_scenarios`, `_cycle_idx`, `_cur_scen`,
`_scenarios_this_epoch` and `_best`.  The epoch set holds `Option String`
because the Python set can contain `None` (the `best` getter adds
`self._best`, which is initialised to `None`). -/
structure State where
  all_scenario_list : List String
  num_scenarios : Nat
  cycle_idx : Nat
  cur_scen : String
  scenarios_this_epoch : Finset (Option String)
  best : Option String
deriving DecidableEq

/-- `ScenarioCycler.__init__`: `self._cur_scen = all_scenario_list[0]`
raises `IndexError` on an empty list, so construction is `Option`-valued:
`none` models the raised exception. -/
def init (all_scenario_list : List String) : Option State :=
  match all_scenario_list with
  | [] => none
  | x :: _ =>
    some { all_scenario_list := all_scenario_list
           num_scenarios := all_scenario_list.length
           cycle_idx := 0
           cur_scen := x
           scenarios_this_epoch := ∅
           best := none }

/-- `ScenarioCycler._iter_scen`: advance `_cycle_idx` by one, wrap it
modulo `_num_scenarios`, refresh `_cur_scen` from the list.  The Python
list access `self._all_scenario_list[self._cycle_idx]` is rendered with
`List.getD`; well-formedness (proved below) keeps the index in bounds, so
the `""` default is never produced. -/
def iter_scen (s : State) : State :=
  let idx := (s.cycle_idx + 1) % s.num_scenarios
  { s with cycle_idx := idx
           cur_scen := s.all_scenario_list.getD idx "" }

/-- `ScenarioCycler.get_next`: if the candidate at the cursor was already
visited this epoch, advance and return `None`; otherwise mark it visited,
advance, and return it. -/
def get_next (s : State) : Option String × State :=
  let next_scen := s.cur_scen
  if (some next_scen) ∈ s.scenarios_this_epoch then
    (none, iter_scen s)
  else
    (some next_scen,
     iter_scen { s with
       scenarios_this_epoch := insert (some next_scen) s.scenarios_this_epoch })

/-- `ScenarioCycler.begin_epoch`: reset the visited set. -/
def begin_epoch (s : State) : State :=
  { s with scenarios_this_epoch := ∅ }

/-- The `best` property getter: adds `self._best` to the epoch set as a
side effect, then returns it. -/
def read_best (s : State) : Option String × State :=
  (s.best, { s with scenarios_this_epoch := insert s.best s.scenarios_this_epoch })

/-- The `best` property setter: records the new pinned best candidate. -/
def set_best (s : State) (value : String) : State :=
  { s with best := some value }

/-- One externally invocable operation on a `ScenarioCycler`. -/
inductive Op where
  | getNext
  | beginEpoch
  | readBest
  | setBest (value : String)
deriving DecidableEq, Repr

/-- Apply one operation, discarding any returned value. -/
def applyOp (s : State) : Op → State
  | .getNext => (get_next s).2
  | .beginEpoch => begin_epoch s
  | .readBest => (read_best s).2
  | .setBest v => set_best s v

/-- Run a sequence of operations, discarding returned values. -/
def runOps (s : State) (ops : List Op) : State :=
  ops.foldl applyOp s

/-- Run a sequence of operations, collecting the value returned by each
`get_next` call in order. -/
def runTrace (s : State) : List Op → List (Option String) × State
  | [] => ([], s)
  | .getNext :: ops =>
    let r := get_next s
    let rest := runTrace r.2 ops
    (r.1 :: rest.1, rest.2)
  | op :: ops => runTrace (applyOp s op) ops

/-- Run `n` consecutive `get_next` calls, collecting the returned values. -/
def runGetNext (s : State) : Nat → List (Option String) × State
  | 0 => ([], s)
  | n + 1 =>
    let r := get_next s
    let rest := runGetNext r.2 n
    (r.1 :: rest.1, rest.2)

/-- Well-formedness: the cached length matches the list, the list is
non-empty, the cursor is in bounds, and the current scenario is the list
entry at the cursor.  Established by `init` and preserved by every
operation. -/
def WF (s : State) : Prop :=
  s.num_scenarios = s.all_scenario_list.length ∧
  0 < s.num_scenarios ∧
  s.cycle_idx < s.num_scenarios ∧
  s.cur_scen = s.all_scenario_list.getD s.cycle_idx ""

instance (s : State) : Decidable (WF s) := by
  unfold WF; infer_instance

/-- Mid-epoch description of a cycler: over order `l`, the epoch began at
cursor `c0` and exactly the first `j` candidates of the traversal order
`l.rotate c0` have been handed out (and marked visited) this epoch. -/
def MidEpoch (l : List String) (c0 j : Nat) (s : State) : Prop :=
  s.all_scenario_list = l ∧
  s.num_scenarios = l.length ∧
  s.cycle_idx = (c0 + j) % l.length ∧
  s.cur_scen = l.getD s.cycle_idx "" ∧
  s.scenarios_this_epoch = (((l.rotate c0).take j).map some).toFinset

end ScenarioCycler

namespace XhatShuffleInnerBound

/-- The bound-carrying fields of the sampling spoke: `self.ib` (the local
best inner bound, initialised to `inf` or `-inf` in `main`) and
`self.bound` (the value last assigned to the reporting `bound` property;
`none` before any report). -/
structure BoundState where
  ib : PyFloat
  bound : Option ℚ
deriving DecidableEq

/-- `XhatShuffleInnerBound.try_scenario`
(`xhataphshuffle_bounder.py`, lines 88-111).  The external evaluation
`self.xhatter._try_one(...)` is passed in as `obj : Option ℚ`
(`none` models the Python `None` returned on infeasibility).  Returns
the Python return value `update` together with the new bound state. -/
def try_scenario (is_minimizing : Bool) (s : BoundState) (obj : Option ℚ) :
    Bool × BoundState :=
  match obj with
  | none => (false, s)
  | some v =>
    let ib := s.ib
    let update : Bool :=
      if is_minimizing then decide (PyFloat.ofRat v < ib)
      else decide (ib < PyFloat.ofRat v)
    if update then (update, { ib := PyFloat.ofRat v, bound := some v })
    else (update, s)

/-- Fold `try_scenario` over a sequence of feasible objective values. -/
def foldTry (is_minimizing : Bool) (s : BoundState) (vs : List ℚ) : BoundState :=
  vs.foldl (fun st v => (try_scenario is_minimizing st (some v)).2) s

/-- The bound state recorded after each step of feeding a sequence of
feasible objective values, the starting state included as head. -/
def scanTry (is_minimizing : Bool) (s : BoundState) (vs : List ℚ) :
    List BoundState :=
  vs.scanl (fun st v => (try_scenario is_minimizing st (some v)).2) s

/-- The sampling-spoke loop state: the scenario cycler and the bound
fields of the spoke. -/
structure LoopState where
  cycler : ScenarioCycler.State
  spoke : BoundState
deriving DecidableEq

/-- One candidate-trying tick of `XhatShuffleInnerBound.main`
(`xhataphshuffle_bounder.py`, lines 150-166): take the next scenario from
the cycler; if there is one, evaluate it through `try_scenario` and on
improvement pin it as the cycler best; otherwise begin a new epoch.
The external evaluator is `evalf`. -/
def shuffle_step (is_minimizing : Bool) (evalf : String → Option ℚ)
    (st : LoopState) : LoopState :=
  let r := ScenarioCycler.get_next st.cycler
  match r.1 with
  | some next_scenario =>
    let t := try_scenario is_minimizing st.spoke (evalf next_scenario)
    if t.1 then
      { cycler := ScenarioCycler.set_best r.2 next_scenario, spoke := t.2 }
    else
      { cycler := r.2, spoke := t.2 }
  | none =>
    { cycler := ScenarioCycler.begin_epoch r.2, spoke := st.spoke }

end XhatShuffleInnerBound

/-- The Python condition
`"bundles_per_rank" in self.opt.options and self.opt.options["bundles_per_rank"] != 0`
guarding the bundles `RuntimeError` in both spokes; `none` models an
absent key. -/
def bundles_bad (bundles_per_rank : Option Int) : Bool :=
  match bundles_per_rank with
  | some b => decide (b ≠ 0)
  | none => false

/-- Outcome of a spoke start-up: either the spoke aborted before its main
loop (a raised `RuntimeError` or a `quit()` with the listed logged
diagnostics), or it reached the main loop. -/
inductive StartOutcome where
  | runtimeError (msg : String)
  | terminated (logged : List (String × ℚ))
  | enteredLoop
deriving DecidableEq

namespace XhatShuffleInnerBound

/-- The configuration facts `xhatbase_prep` inspects
(`xhataphshuffle_bounder.py`, lines 22-33): whether the model is
multistage, the `bundles_per_rank` option (`none` when the key is
absent), and whether the companion `self.opt` is an `XhatTryer`. -/
structure Config where
  multistage : Bool
  bundles_per_rank : Option Int
  opt_is_xhat_tryer : Bool
deriving DecidableEq

/-- The three `RuntimeError` guards at the top of
`XhatShuffleInnerBound.xhatbase_prep` (lines 22-33), in source order. -/
def prep_config_checks (c : Config) : Except String Unit :=
  if c.multistage then
    .error "The XhatShuffleInnerBound only supports two-stage models at this time."
  else if bundles_bad c.bundles_per_rank then
    .error "xhat spokes cannot have bundles (yet)"
  else if ¬ c.opt_is_xhat_tryer then
    .error "XhatShuffleInnerBound must be used with XhatTryer."
  else
    .ok ()

/-- The iter0 consistency checks of `xhatbase_prep` (lines 58-70): if the
total scenario probability `E1` deviates from 1 by more than
`E1_tolerance`, print the diagnostics on the global rank 0 and `quit()`;
then the feasibility check `feas_prob() != E1`, same shape. -/
def prep_e1_checks (E1 E1_tolerance feasP : ℚ) (is_rank0 : Bool) :
    StartOutcome :=
  if |1 - E1| > E1_tolerance then
    .terminated (if is_rank0 then
      [("Total probability of scenarios was", E1), ("E1_tolerance =", E1_tolerance)]
      else [])
  else if feasP ≠ E1 then
    .terminated (if is_rank0 then
      [("Infeasibility detected; E_feas, E1=", feasP),
       ("Infeasibility detected; E_feas, E1=", E1)]
      else [])
  else
    .enteredLoop

/-- `XhatShuffleInnerBound.main` start-up, up to the top of the
`while not self.got_kill_signal()` loop: `xhatbase_prep` runs the
configuration guards and then (after the opaque solves) the E1
consistency checks; only if nothing aborts does control reach the loop. -/
def spoke_start (c : Config) (E1 E1_tolerance feasP : ℚ) (is_rank0 : Bool) :
    StartOutcome :=
  match prep_config_checks c with
  | .error msg => .runtimeError msg
  | .ok _ => prep_e1_checks E1 E1_tolerance feasP is_rank0

end XhatShuffleInnerBound

namespace XhatSpecificInnerBound

/-- The configuration facts `ib_prep` inspects
(`xhatspecific_bounder.py`, lines 32-37): the `bundles_per_rank` option
(`none` when the key is absent) and whether the companion `self.opt` is
an `Xhat_Eval`. -/
structure Config where
  bundles_per_rank : Option Int
  opt_is_xhat_eval : Bool
deriving DecidableEq

/-- The two `RuntimeError` guards at the top of
`XhatSpecificInnerBound.ib_prep` (lines 32-37), in source order. -/
def prep_config_checks (c : Config) : Except String Unit :=
  if bundles_bad c.bundles_per_rank then
    .error "xhat spokes cannot have bundles (yet)"
  else if ¬ c.opt_is_xhat_eval then
    .error "XhatShuffleInnerBound must be used with Xhat_Eval."
  else
    .ok ()

/-- The E1 consistency check of `ib_prep` (lines 49-55): if the total
scenario probability deviates from 1 by more than the tolerance, log the
diagnostics on cylinder rank 0 and `quit()`. -/
def prep_e1_check (E1 E1_tolerance : ℚ) (is_rank0 : Bool) : StartOutcome :=
  if |1 - E1| > E1_tolerance then
    .terminated (if is_rank0 then
      [("Total probability of scenarios was", E1), ("E1_tolerance =", E1_tolerance)]
      else [])
  else
    .enteredLoop

/-- `XhatSpecificInnerBound.main` start-up up to the top of its
`while not self.got_kill_signal()` loop: `ib_prep` runs the configuration
guards, then the E1 check; only if neither aborts does control reach the
loop. -/
def spoke_start (c : Config) (E1 E1_tolerance : ℚ) (is_rank0 : Bool) :
    StartOutcome :=
  match prep_config_checks c with
  | .error msg => .runtimeError msg
  | .ok _ => prep_e1_check E1 E1_tolerance is_rank0

/-- Modelled from the spec: `InnerBoundNonantSpoke.update_if_improving`
(defined in `mpisppy/cylinders/spoke.py`, which is not part of the
excerpted sources) — per the spec, an Inner bound for a minimization is
replaced only by a strictly smaller value (for maximization, strictly
larger), infeasible (`None`) results are skipped, and the bound is
reported only on strict improvement. -/
def update_if_improving (is_minimizing : Bool)
    (s : XhatShuffleInnerBound.BoundState) (candidate : Option ℚ) :
    XhatShuffleInnerBound.BoundState :=
  match candidate with
  | none => s
  | some v =>
    let improving : Bool :=
      if is_minimizing then decide (PyFloat.ofRat v < s.ib)
      else decide (s.ib < PyFloat.ofRat v)
    if improving then { ib := PyFloat.ofRat v, bound := some v } else s

/-- One tick of `XhatSpecificInnerBound.main`
(`xhatspecific_bounder.py`, lines 80-94): only when `new_nonants` holds
does the spoke refresh its caches, evaluate the pre-declared
`xhat_scenario_dict` through `xhatter.xhat_tryit` (modelled by `evalf`),
and feed the result to `update_if_improving`.  The second component of
the result lists the evaluator invocations made during the tick. -/
def specific_step (is_minimizing : Bool) (xhat_scenario_dict : String)
    (evalf : String → Option ℚ) (new_nonants : Bool)
    (s : XhatShuffleInnerBound.BoundState) :
    XhatShuffleInnerBound.BoundState × List String :=
  if new_nonants then
    let innerbound := evalf xhat_scenario_dict
    (update_if_improving is_minimizing s innerbound, [xhat_scenario_dict])
  else
    (s, [])

end XhatSpecificInnerBound

/-! ## Lemmas about the scenario cycler -/

namespace ScenarioCycler

theorem init_wf {l : List String} {s : State} (h : init l = some s) : WF s := by
  cases l with
  | nil => simp [init] at h
  | cons x xs =>
    simp only [init, Option.some.injEq] at h
    subst h
    refine ⟨rfl, by simp, by simp, by simp⟩

theorem iter_scen_wf {s : State} (h : WF s) : WF (iter_scen s) := by
  obtain ⟨hlen, hpos, _, _⟩ := h
  have hidx : (s.cycle_idx + 1) % s.num_scenarios < s.num_scenarios :=
    Nat.mod_lt _ hpos
  exact ⟨hlen, hpos, hidx, rfl⟩

theorem get_next_wf {s : State} (h : WF s) : WF (get_next s).2 := by
  unfold get_next
  by_cases hmem : (some s.cur_scen) ∈ s.scenarios_this_epoch
  · simpa [hmem] using iter_scen_wf h
  · simp only [hmem, if_neg, ite_false]
    exact iter_scen_wf ⟨h.1, h.2.1, h.2.2.1, h.2.2.2⟩

theorem applyOp_wf {s : State} (h : WF s) (op : Op) : WF (applyOp s op) := by
  cases op with
  | getNext => exact get_next_wf h
  | beginEpoch => exact ⟨h.1, h.2.1, h.2.2.1, h.2.2.2⟩
  | readBest => exact ⟨h.1, h.2.1, h.2.2.1, h.2.2.2⟩
  | setBest v => exact ⟨h.1, h.2.1, h.2.2.1, h.2.2.2⟩

theorem runOps_wf {s : State} (h : WF s) (ops : List Op) : WF (runOps s ops) := by
  induction ops generalizing s with
  | nil => exact h
  | cons op ops ih => exact ih (applyOp_wf h op)

theorem applyOp_all_list (s : State) (op : Op) :
    (applyOp s op).all_scenario_list = s.all_scenario_list := by
  cases op <;> simp [applyOp, get_next, iter_scen, begin_epoch, read_best, set_best]
  split <;> rfl

theorem runOps_all_list (s : State) (ops : List Op) :
    (runOps s ops).all_scenario_list = s.all_scenario_list := by
  induction ops generalizing s with
  | nil => rfl
  | cons op ops ih => rw [runOps, List.foldl_cons, ← runOps, ih, applyOp_all_list]

theorem init_all_list {l : List String} {s : State} (h : init l = some s) :
    s.all_scenario_list = l := by
  cases l with
  | nil => simp [init] at h
  | cons x xs =>
    simp only [init, Option.some.injEq] at h
    subst h
    rfl

theorem visited_subset_get_next (s : State) :
    s.scenarios_this_epoch ⊆ (get_next s).2.scenarios_this_epoch := by
  unfold get_next
  by_cases hmem : (some s.cur_scen) ∈ s.scenarios_this_epoch
  · simp [hmem, iter_scen]
  · simp only [hmem, ite_false]
    intro x hx
    simp only [iter_scen, Finset.mem_insert]
    exact Or.inr hx

theorem visited_mem_applyOp {x : Option String} {s : State} {op : Op}
    (hop : op ≠ Op.beginEpoch) (hx : x ∈ s.scenarios_this_epoch) :
    x ∈ (applyOp s op).scenarios_this_epoch := by
  cases op with
  | getNext => exact visited_subset_get_next s hx
  | beginEpoch => exact absurd rfl hop
  | readBest => exact Finset.mem_insert_of_mem hx
  | setBest v => exact hx

theorem get_next_fst_eq_some {s : State} {x : String}
    (h : (get_next s).1 = some x) :
    x = s.cur_scen ∧ (some x) ∉ s.scenarios_this_epoch := by
  unfold get_next at h
  by_cases hmem : (some s.cur_scen) ∈ s.scenarios_this_epoch
  · simp [hmem] at h
  · simp only [hmem, ite_false] at h
    obtain rfl : s.cur_scen = x := by simpa using h
    exact ⟨rfl, hmem⟩

theorem get_next_fst_ne_of_visited {s : State} {x : String}
    (hx : (some x) ∈ s.scenarios_this_epoch) : (get_next s).1 ≠ some x := by
  intro h
  obtain ⟨rfl, hnot⟩ := get_next_fst_eq_some h
  exact hnot hx

theorem get_next_marks_visited {s : State} {x : String}
    (h : (get_next s).1 = some x) :
    (some x) ∈ (get_next s).2.scenarios_this_epoch := by
  obtain ⟨rfl, hnot⟩ := get_next_fst_eq_some h
  unfold get_next
  simp [hnot, iter_scen]

theorem trace_avoids_visited {x : String} :
    ∀ (ops : List Op) (s : State), Op.beginEpoch ∉ ops →
      (some x) ∈ s.scenarios_this_epoch →
      (some x) ∉ (runTrace s ops).1 := by
  intro ops
  induction ops with
  | nil => intro s _ _ h; simp [runTrace] at h
  | cons op ops ih =>
    intro s hops hx
    have hop : op ≠ Op.beginEpoch := fun h => hops (h ▸ List.mem_cons_self op ops)
    have hops2 : Op.beginEpoch ∉ ops := fun h => hops (List.mem_cons_of_mem op h)
    cases op with
    | getNext =>
      simp only [runTrace, List.mem_cons]
      rintro (h1 | h2)
      · exact get_next_fst_ne_of_visited hx h1.symm
      · exact ih (get_next s).2 hops2 (visited_subset_get_next s hx) h2
    | beginEpoch => exact absurd rfl hop
    | readBest => exact ih _ hops2 (visited_mem_applyOp hop hx)
    | setBest v => exact ih _ hops2 (visited_mem_applyOp hop hx)

theorem trace_reduceOption_nodup :
    ∀ (ops : List Op) (s : State), Op.beginEpoch ∉ ops →
      ((runTrace s ops).1.reduceOption).Nodup := by
  intro ops
  induction ops with
  | nil => intro s _; simp [runTrace]
  | cons op ops ih =>
    intro s hops
    have hop : op ≠ Op.beginEpoch := fun h => hops (h ▸ List.mem_cons_self op ops)
    have hops2 : Op.beginEpoch ∉ ops := fun h => hops (List.mem_cons_of_mem op h)
    cases op with
    | getNext =>
      simp only [runTrace]
      rcases hfst : (get_next s).1 with _ | x
      · simpa [List.reduceOption_cons_of_none] using ih (get_next s).2 hops2
      · rw [List.reduceOption_cons_of_some]
        refine List.Nodup.cons ?_ (ih (get_next s).2 hops2)
        rw [List.reduceOption_mem_iff]
        exact trace_avoids_visited ops (get_next s).2 hops2
          (get_next_marks_visited hfst)
    | beginEpoch => exact absurd rfl hop
    | readBest => exact ih _ hops2
    | setBest v => exact ih _ hops2

theorem midEpoch_begin {s : State} (h : WF s) :
    MidEpoch s.all_scenario_list s.cycle_idx 0 (begin_epoch s) := by
  obtain ⟨hnum, hpos, hidx, hcur⟩ := h
  refine ⟨rfl, hnum, ?_, hcur, rfl⟩
  have : s.cycle_idx < s.all_scenario_list.length := hnum ▸ hidx
  simpa using (Nat.mod_eq_of_lt this).symm

theorem rotate_get_not_mem_take {l : List String} (hnd : l.Nodup) {c0 j : Nat}
    (hjr : j < (l.rotate c0).length) :
    (l.rotate c0).get ⟨j, hjr⟩ ∉ (l.rotate c0).take j := by
  set r := l.rotate c0 with hr
  have hrnd : r.Nodup := List.nodup_rotate.mpr hnd
  have hsplit : r.take j ++ r.drop j = r := List.take_append_drop j r
  have hnd2 : (r.take j ++ r.drop j).Nodup := by rw [hsplit]; exact hrnd
  have hdisj : (r.take j).Disjoint (r.drop j) := (List.nodup_append.mp hnd2).2.2
  have hmem : r.get ⟨j, hjr⟩ ∈ r.drop j := by
    rw [List.drop_eq_getElem_cons hjr, List.get_eq_getElem]
    exact List.mem_cons_self _ _
  exact fun htake => hdisj htake hmem

theorem midEpoch_step {l : List String} {c0 j : Nat} {s : State}
    (hnd : l.Nodup) (hj : j < l.length) (h : MidEpoch l c0 j s) :
    (get_next s).1 = some ((l.rotate c0).getD j "") ∧
    MidEpoch l c0 (j + 1) (get_next s).2 := by
  obtain ⟨hall, hnum, hidx, hcur, hvis⟩ := h
  have hlenpos : 0 < l.length := by omega
  have hrlen : (l.rotate c0).length = l.length := List.length_rotate l c0
  have hjr : j < (l.rotate c0).length := hrlen ▸ hj
  have hmod : (c0 + j) % l.length < l.length := Nat.mod_lt _ hlenpos
  have hcur_eq : s.cur_scen = (l.rotate c0).get ⟨j, hjr⟩ := by
    rw [hcur, hidx, List.getD_eq_get _ _ hmod, List.get_rotate]
    congr 1
    simp [Nat.add_comm]
  have hnotvis : (some s.cur_scen) ∉ s.scenarios_this_epoch := by
    rw [hvis, hcur_eq]
    simp only [List.mem_toFinset, List.mem_map, Option.some.injEq, not_exists,
      not_and]
    intro y hy hEq
    exact rotate_get_not_mem_take hnd hjr (hEq ▸ hy)
  have hout : (get_next s).1 = some ((l.rotate c0).getD j "") := by
    unfold get_next
    simp only [hnotvis, ite_false]
    rw [hcur_eq, List.getD_eq_get _ _ hjr]
  refine ⟨hout, ?_, ?_, ?_, ?_, ?_⟩
  · unfold get_next
    simp only [hnotvis, ite_false]
    simpa [iter_scen] using hall
  · unfold get_next
    simp only [hnotvis, ite_false]
    simpa [iter_scen] using hnum
  · unfold get_next
    simp only [hnotvis, ite_false, iter_scen]
    rw [hnum, hidx, Nat.mod_add_mod, Nat.add_assoc]
  · unfold get_next
    simp only [hnotvis, ite_false, iter_scen]
    rw [hall]
  · unfold get_next
    simp only [hnotvis, ite_false, iter_scen]
    rw [hvis, hcur_eq, ← List.take_concat_get (l.rotate c0) j hjr,
      List.concat_eq_append, List.map_append, List.toFinset_append,
      List.get_eq_getElem]
    simp only [List.map_cons, List.map_nil, List.toFinset_cons,
      List.toFinset_nil, insert_emptyc_eq]
    rw [Finset.insert_eq, Finset.union_comm]

theorem midEpoch_run {l : List String} {c0 : Nat} (hnd : l.Nodup) :
    ∀ (k j : Nat) (s : State), j + k = l.length → MidEpoch l c0 j s →
      (runGetNext s k).1 = ((l.rotate c0).drop j).map some := by
  intro k
  induction k with
  | zero =>
    intro j s hjk _
    have : (l.rotate c0).drop j = [] :=
      List.drop_eq_nil_of_le (by rw [List.length_rotate]; omega)
    simp [runGetNext, this]
  | succ k ih =>
    intro j s hjk h
    have hj : j < l.length := by omega
    have hjr : j < (l.rotate c0).length := by rw [List.length_rotate]; omega
    obtain ⟨hout, hnext⟩ := midEpoch_step hnd hj h
    have hrest := ih (j + 1) (get_next s).2 (by omega) hnext
    simp only [runGetNext, hout, hrest]
    rw [List.drop_eq_getElem_cons hjr, List.map_cons]
    congr 1
    rw [List.getD_eq_get _ _ hjr, List.get_eq_getElem]

end ScenarioCycler

/-! ## Lemmas about the bound-improvement rule -/

namespace XhatShuffleInnerBound

theorem try_scenario_ib_min (s : BoundState) (v : ℚ) :
    ((try_scenario true s (some v)).2).ib = min s.ib (PyFloat.ofRat v) := by
  rcases lt_or_ge (PyFloat.ofRat v) s.ib with h | h
  · have hm : min s.ib (PyFloat.ofRat v) = PyFloat.ofRat v := min_eq_right h.le
    simp [try_scenario, h, hm]
  · have h2 : ¬ (PyFloat.ofRat v < s.ib) := not_lt.mpr h
    have hm : min s.ib (PyFloat.ofRat v) = s.ib := min_eq_left h
    simp [try_scenario, h2, hm]

theorem scanTry_ib (s : BoundState) (vs : List ℚ) :
    (scanTry true s vs).map (fun t => t.ib)
      = vs.scanl (fun a v => min a (PyFloat.ofRat v)) s.ib := by
  induction vs generalizing s with
  | nil => simp [scanTry]
  | cons v vs ih =>
    simp only [scanTry, List.scanl, List.map_cons]
    have h := ih (try_scenario true s (some v)).2
    unfold scanTry at h
    rw [h, try_scenario_ib_min]

theorem try_scenario_strict_min (s : BoundState) (v : ℚ)
    (hne : (try_scenario true s (some v)).2.ib ≠ s.ib) :
    (try_scenario true s (some v)).2.ib < s.ib := by
  by_cases h : PyFloat.ofRat v < s.ib
  · simpa [try_scenario, h] using h
  · exact absurd (by simp [try_scenario, h]) hne

theorem try_scenario_strict_max (s : BoundState) (v : ℚ)
    (hne : (try_scenario false s (some v)).2.ib ≠ s.ib) :
    s.ib < (try_scenario false s (some v)).2.ib := by
  by_cases h : s.ib < PyFloat.ofRat v
  · simpa [try_scenario, h] using h
  · exact absurd (by simp [try_scenario, h]) hne

end XhatShuffleInnerBound

/-! ## Lemmas about the start-up guards -/

theorem shuffle_prep_error (c : XhatShuffleInnerBound.Config)
    (h : c.multistage = true ∨ (∃ b, c.bundles_per_rank = some b ∧ b ≠ 0) ∨
         c.opt_is_xhat_tryer = false) :
    ∃ msg, XhatShuffleInnerBound.prep_config_checks c = .error msg := by
  rcases h with hm | ⟨b, hb, hb0⟩ | ht
  · exact ⟨"The XhatShuffleInnerBound only supports two-stage models at this time.",
      by simp [XhatShuffleInnerBound.prep_config_checks, hm]⟩
  · by_cases hm : c.multistage
    · exact ⟨"The XhatShuffleInnerBound only supports two-stage models at this time.",
        by simp [XhatShuffleInnerBound.prep_config_checks, hm]⟩
    · have hbv : bundles_bad c.bundles_per_rank = true := by
        simp [bundles_bad, hb, hb0]
      exact ⟨"xhat spokes cannot have bundles (yet)",
        by simp [XhatShuffleInnerBound.prep_config_checks, hm, hbv]⟩
  · by_cases hm : c.multistage
    · exact ⟨"The XhatShuffleInnerBound only supports two-stage models at this time.",
        by simp [XhatShuffleInnerBound.prep_config_checks, hm]⟩
    · by_cases hbv : bundles_bad c.bundles_per_rank
      · exact ⟨"xhat spokes cannot have bundles (yet)",
          by simp [XhatShuffleInnerBound.prep_config_checks, hm, hbv]⟩
      · exact ⟨"XhatShuffleInnerBound must be used with XhatTryer.",
          by simp [XhatShuffleInnerBound.prep_config_checks, hm, hbv, ht]⟩

theorem specific_prep_error (c : XhatSpecificInnerBound.Config)
    (h : (∃ b, c.bundles_per_rank = some b ∧ b ≠ 0) ∨ c.opt_is_xhat_eval = false) :
    ∃ msg, XhatSpecificInnerBound.prep_config_checks c = .error msg := by
  rcases h with ⟨b, hb, hb0⟩ | he
  · have hbv : bundles_bad c.bundles_per_rank = true := by
      simp [bundles_bad, hb, hb0]
    exact ⟨"xhat spokes cannot have bundles (yet)",
      by simp [XhatSpecificInnerBound.prep_config_checks, hbv]⟩
  · by_cases hbv : bundles_bad c.bundles_per_rank
    · exact ⟨"xhat spokes cannot have bundles (yet)",
        by simp [XhatSpecificInnerBound.prep_config_checks, hbv]⟩
    · exact ⟨"XhatShuffleInnerBound must be used with Xhat_Eval.",
        by simp [XhatSpecificInnerBound.prep_config_checks, hbv, he]⟩


/-! ## Claim theorems -/

/-- C1 (corrected — counterexample): over the order `["A","B","C"]`, three
`get_next()` calls return `A, B, C` and the 4th returns no candidate, but
after `begin_epoch()` the very next `get_next()` call returns `"B"`, not
`"A"` as the claim states: the trace of returned values is
`[A, B, C, none, B]`. -/
theorem claim1_counterexample :
    (ScenarioCycler.runTrace ((ScenarioCycler.init ["A", "B", "C"]).get (by decide))
        [ScenarioCycler.Op.getNext, ScenarioCycler.Op.getNext, ScenarioCycler.Op.getNext,
         ScenarioCycler.Op.getNext, ScenarioCycler.Op.beginEpoch,
         ScenarioCycler.Op.getNext]).1
      = [some "A", some "B", some "C", none, some "B"] ∧
    (some "B" : Option String) ≠ some "A" := by
  decide

/-- C1 (amended): starting from a freshly constructed `ScenarioCycler` over
`["A","B","C"]`, three consecutive `get_next()` calls return `A, B, C`,
the 4th call returns no candidate (epoch exhausted) while also advancing
the cursor past `"A"` (the current scenario becomes `"B"`), and after a
subsequent `begin_epoch()` the very next `get_next()` call returns `"B"`
(the candidate at the advanced cursor), not `"A"`. -/
theorem claim1_amended_trace :
    ((ScenarioCycler.runGetNext ((ScenarioCycler.init ["A", "B", "C"]).get (by decide)) 4).1
      = [some "A", some "B", some "C", none]) ∧
    ((ScenarioCycler.runGetNext ((ScenarioCycler.init ["A", "B", "C"]).get (by decide)) 4).2.cur_scen
      = "B") ∧
    ((ScenarioCycler.get_next (ScenarioCycler.begin_epoch
        (ScenarioCycler.runGetNext ((ScenarioCycler.init ["A", "B", "C"]).get (by decide)) 4).2)).1
      = some "B") := by
  decide

/-- C2: feeding feasible objective values to `try_scenario` under minimize
sense starting from `ib = +inf`, the recorded best after each step is the
minimum of all values seen so far (`scanl min`); the best is replaced only
by a strictly smaller value under minimize and only by a strictly larger
value under maximize; and for the input `[10, 7, 9, 4]` the recorded best
sequence is `[10, 7, 7, 4]`, so `9` never overwrites `7`. -/
theorem claim2_monotonic_bound_improvement :
    (∀ vs : List ℚ,
      (XhatShuffleInnerBound.scanTry true ⟨⊤, none⟩ vs).map (fun t => t.ib)
        = vs.scanl (fun a v => min a (PyFloat.ofRat v)) ⊤) ∧
    (∀ (s : XhatShuffleInnerBound.BoundState) (v : ℚ),
      ((XhatShuffleInnerBound.try_scenario true s (some v)).2.ib ≠ s.ib →
        (XhatShuffleInnerBound.try_scenario true s (some v)).2.ib < s.ib) ∧
      ((XhatShuffleInnerBound.try_scenario false s (some v)).2.ib ≠ s.ib →
        s.ib < (XhatShuffleInnerBound.try_scenario false s (some v)).2.ib)) ∧
    (XhatShuffleInnerBound.scanTry true ⟨⊤, none⟩ [10, 7, 9, 4]).map (fun t => t.ib)
      = [⊤, PyFloat.ofRat 10, PyFloat.ofRat 7, PyFloat.ofRat 7, PyFloat.ofRat 4] := by
  refine ⟨fun vs => XhatShuffleInnerBound.scanTry_ib ⟨⊤, none⟩ vs, ?_, by decide⟩
  exact fun s v => ⟨XhatShuffleInnerBound.try_scenario_strict_min s v,
    XhatShuffleInnerBound.try_scenario_strict_max s v⟩

/-- C2 witness: at the concrete state `ib = 10` and feasible value `7`,
the hypothesis of the strict-replacement component holds (`7 ≠ 10`) and
the theorem yields the strict decrease. -/
theorem claim2_witness :
    ((XhatShuffleInnerBound.try_scenario true ⟨PyFloat.ofRat 10, none⟩ (some 7)).2.ib
      ≠ PyFloat.ofRat 10) ∧
    ((XhatShuffleInnerBound.try_scenario true ⟨PyFloat.ofRat 10, none⟩ (some 7)).2.ib
      < PyFloat.ofRat 10) :=
  ⟨by decide,
   (claim2_monotonic_bound_improvement.2.1 ⟨PyFloat.ofRat 10, none⟩ 7).1 (by decide)⟩

/-- C3: from any reachable (well-formed) cycler state over a duplicate-free
candidate list of size `N`, calling `begin_epoch()` once and then making
`N` consecutive `get_next()` calls yields `N` successful answers: exactly
the rotation of the candidate list starting at the current cursor, hence
each candidate exactly once in the fixed traversal order; moreover, within
any window of operations containing no `begin_epoch`, the successful
`get_next()` answers are pairwise distinct. -/
theorem claim3_cycler_exhaustiveness (s : ScenarioCycler.State)
    (hwf : ScenarioCycler.WF s) (hnd : s.all_scenario_list.Nodup) :
    ((ScenarioCycler.runGetNext (ScenarioCycler.begin_epoch s)
        s.all_scenario_list.length).1
      = (s.all_scenario_list.rotate s.cycle_idx).map some) ∧
    (s.all_scenario_list.rotate s.cycle_idx).Perm s.all_scenario_list ∧
    (s.all_scenario_list.rotate s.cycle_idx).Nodup ∧
    (∀ (t : ScenarioCycler.State) (ops : List ScenarioCycler.Op),
      ScenarioCycler.Op.beginEpoch ∉ ops →
      ((ScenarioCycler.runTrace t ops).1.reduceOption).Nodup) := by
  refine ⟨?_, List.rotate_perm _ _, List.nodup_rotate.mpr hnd,
    fun t ops hops => ScenarioCycler.trace_reduceOption_nodup ops t hops⟩
  have h := ScenarioCycler.midEpoch_run hnd s.all_scenario_list.length 0
    (ScenarioCycler.begin_epoch s) (by omega) (ScenarioCycler.midEpoch_begin hwf)
  simpa using h

/-- C3 witness: the concrete cycler over `["A","B","C"]` is well-formed
and duplicate-free; instantiating the theorem there gives the full-epoch
traversal `[A, B, C]`. -/
theorem claim3_witness :
    ScenarioCycler.WF ((ScenarioCycler.init ["A", "B", "C"]).get (by decide)) ∧
    ((ScenarioCycler.init ["A", "B", "C"]).get (by decide)).all_scenario_list.Nodup ∧
    (ScenarioCycler.runGetNext
        (ScenarioCycler.begin_epoch ((ScenarioCycler.init ["A", "B", "C"]).get (by decide)))
        3).1
      = [some "A", some "B", some "C"] :=
  ⟨by decide, by decide, by
    have h := (claim3_cycler_exhaustiveness
      ((ScenarioCycler.init ["A", "B", "C"]).get (by decide))
      (by decide) (by decide)).1
    exact h.trans (by decide)⟩

/-- C4: after `cycler.best = "B"`, reading `cycler.best` returns `"B"` and
marks `"B"` visited in the current epoch, and consequently no subsequent
`get_next()` call returns `"B"` before the next `begin_epoch()`. -/
theorem claim4_best_pinning (s : ScenarioCycler.State)
    (ops : List ScenarioCycler.Op) (hops : ScenarioCycler.Op.beginEpoch ∉ ops) :
    (ScenarioCycler.read_best (ScenarioCycler.set_best s "B")).1 = some "B" ∧
    (some "B") ∈
      (ScenarioCycler.read_best (ScenarioCycler.set_best s "B")).2.scenarios_this_epoch ∧
    (some "B") ∉ (ScenarioCycler.runTrace
        (ScenarioCycler.read_best (ScenarioCycler.set_best s "B")).2 ops).1 := by
  refine ⟨rfl, Finset.mem_insert_self _ _, ?_⟩
  exact ScenarioCycler.trace_avoids_visited ops _ hops (Finset.mem_insert_self _ _)

/-- C4 witness: instantiated at a concrete cycler over `["A","B","C"]` and
the operation window `[get_next, get_next]` (which contains no
`begin_epoch`). -/
theorem claim4_witness :
    ScenarioCycler.Op.beginEpoch ∉
      ([ScenarioCycler.Op.getNext, ScenarioCycler.Op.getNext] : List ScenarioCycler.Op) ∧
    ((ScenarioCycler.read_best (ScenarioCycler.set_best
        ((ScenarioCycler.init ["A", "B", "C"]).get (by decide)) "B")).1 = some "B" ∧
     (some "B") ∈ (ScenarioCycler.read_best (ScenarioCycler.set_best
        ((ScenarioCycler.init ["A", "B", "C"]).get (by decide)) "B")).2.scenarios_this_epoch ∧
     (some "B") ∉ (ScenarioCycler.runTrace
        (ScenarioCycler.read_best (ScenarioCycler.set_best
          ((ScenarioCycler.init ["A", "B", "C"]).get (by decide)) "B")).2
        [ScenarioCycler.Op.getNext, ScenarioCycler.Op.getNext]).1) :=
  ⟨by decide,
   claim4_best_pinning ((ScenarioCycler.init ["A", "B", "C"]).get (by decide))
     [ScenarioCycler.Op.getNext, ScenarioCycler.Op.getNext] (by decide)⟩

/-- C5: if during start-up bookkeeping the total scenario probability `E1`
deviates from 1 by more than `E1_tolerance`, then (configuration guards
permitting) both detecting spokes log the computed total probability and
the tolerance on rank 0 and terminate (the `quit()` call) before ever
reaching their main loop. -/
theorem claim5_e1_deviation_aborts (E1 tol feasP : ℚ)
    (cS : XhatShuffleInnerBound.Config) (cF : XhatSpecificInnerBound.Config)
    (hdev : |1 - E1| > tol)
    (hS : XhatShuffleInnerBound.prep_config_checks cS = .ok ())
    (hF : XhatSpecificInnerBound.prep_config_checks cF = .ok ()) :
    XhatShuffleInnerBound.spoke_start cS E1 tol feasP true
      = StartOutcome.terminated
          [("Total probability of scenarios was", E1), ("E1_tolerance =", tol)] ∧
    XhatSpecificInnerBound.spoke_start cF E1 tol true
      = StartOutcome.terminated
          [("Total probability of scenarios was", E1), ("E1_tolerance =", tol)] ∧
    (∀ is_rank0, XhatShuffleInnerBound.spoke_start cS E1 tol feasP is_rank0
      ≠ StartOutcome.enteredLoop) ∧
    (∀ is_rank0, XhatSpecificInnerBound.spoke_start cF E1 tol is_rank0
      ≠ StartOutcome.enteredLoop) := by
  have h1 : ∀ r, XhatShuffleInnerBound.spoke_start cS E1 tol feasP r
      = XhatShuffleInnerBound.prep_e1_checks E1 tol feasP r := by
    intro r
    unfold XhatShuffleInnerBound.spoke_start
    rw [hS]
  have h2 : ∀ r, XhatSpecificInnerBound.spoke_start cF E1 tol r
      = XhatSpecificInnerBound.prep_e1_check E1 tol r := by
    intro r
    unfold XhatSpecificInnerBound.spoke_start
    rw [hF]
  refine ⟨?_, ?_, ?_, ?_⟩
  · rw [h1]
    simp [XhatShuffleInnerBound.prep_e1_checks, hdev]
  · rw [h2]
    simp [XhatSpecificInnerBound.prep_e1_check, hdev]
  · intro r
    rw [h1]
    simp [XhatShuffleInnerBound.prep_e1_checks, hdev]
  · intro r
    rw [h2]
    simp [XhatSpecificInnerBound.prep_e1_check, hdev]

/-- C5 witness: at `E1 = 2`, `E1_tolerance = 1/4` (so the deviation `1`
exceeds the tolerance) and benign configurations, both spokes terminate
with the logged probability and tolerance. -/
theorem claim5_witness :
    |1 - (2 : ℚ)| > (1 / 4 : ℚ) ∧
    XhatShuffleInnerBound.prep_config_checks ⟨false, none, true⟩ = .ok () ∧
    XhatSpecificInnerBound.prep_config_checks ⟨none, true⟩ = .ok () ∧
    XhatShuffleInnerBound.spoke_start ⟨false, none, true⟩ 2 (1 / 4) 2 true
      = StartOutcome.terminated
          [("Total probability of scenarios was", 2), ("E1_tolerance =", 1 / 4)] :=
  ⟨by norm_num, rfl, rfl,
   (claim5_e1_deviation_aborts 2 (1 / 4) 2 ⟨false, none, true⟩ ⟨none, true⟩
     (by norm_num) rfl rfl).1⟩

/-- C6: a bound spoke started with an incompatible configuration — a
multistage model for `XhatShuffleInnerBound`, a nonzero `bundles_per_rank`
option, or a companion optimization object that is not of the required
type (`XhatTryer` resp. `Xhat_Eval`) — raises a `RuntimeError` in its
preparation step and never reaches its main loop, whatever the remaining
start-up data. -/
theorem claim6_bad_config_runtime_error
    (cS : XhatShuffleInnerBound.Config) (cF : XhatSpecificInnerBound.Config)
    (hS : cS.multistage = true ∨ (∃ b, cS.bundles_per_rank = some b ∧ b ≠ 0) ∨
          cS.opt_is_xhat_tryer = false)
    (hF : (∃ b, cF.bundles_per_rank = some b ∧ b ≠ 0) ∨
          cF.opt_is_xhat_eval = false) :
    (∃ msg, ∀ E1 tol feasP is_rank0,
        XhatShuffleInnerBound.spoke_start cS E1 tol feasP is_rank0
          = StartOutcome.runtimeError msg) ∧
    (∃ msg, ∀ E1 tol is_rank0,
        XhatSpecificInnerBound.spoke_start cF E1 tol is_rank0
          = StartOutcome.runtimeError msg) := by
  obtain ⟨m1, he1⟩ := shuffle_prep_error cS hS
  obtain ⟨m2, he2⟩ := specific_prep_error cF hF
  refine ⟨⟨m1, fun E1 tol feasP r => ?_⟩, ⟨m2, fun E1 tol r => ?_⟩⟩
  · unfold XhatShuffleInnerBound.spoke_start
    rw [he1]
  · unfold XhatSpecificInnerBound.spoke_start
    rw [he2]

/-- C6 witness: a multistage configuration for the shuffle spoke and a
nonzero `bundles_per_rank` for the specific spoke both make start-up end
in a `RuntimeError`. -/
theorem claim6_witness :
    (XhatShuffleInnerBound.Config.mk true none true).multistage = true ∧
    (XhatSpecificInnerBound.Config.mk (some 1) true).bundles_per_rank = some 1 ∧
    (1 : Int) ≠ 0 ∧
    ((∃ msg, ∀ E1 tol feasP is_rank0,
        XhatShuffleInnerBound.spoke_start (XhatShuffleInnerBound.Config.mk true none true)
          E1 tol feasP is_rank0 = StartOutcome.runtimeError msg) ∧
     (∃ msg, ∀ E1 tol is_rank0,
        XhatSpecificInnerBound.spoke_start (XhatSpecificInnerBound.Config.mk (some 1) true)
          E1 tol is_rank0 = StartOutcome.runtimeError msg)) :=
  ⟨rfl, rfl, by decide,
   claim6_bad_config_runtime_error _ _ (Or.inl rfl) (Or.inl ⟨1, rfl, by decide⟩)⟩

/-- C7: when the external evaluation of a candidate is infeasible
(`None` objective), `try_scenario` returns `False` leaving `self.ib` and
`self.bound` unchanged, and the main-loop tick proceeds to the advanced
cycler state (the next candidate) with the spoke state intact — the
infeasibility is swallowed, not propagated. -/
theorem claim7_infeasible_skip (is_min : Bool)
    (st : XhatShuffleInnerBound.LoopState) (evalf : String → Option ℚ)
    (scen : String) (cyc2 : ScenarioCycler.State)
    (hnext : ScenarioCycler.get_next st.cycler = (some scen, cyc2))
    (hinf : evalf scen = none) :
    XhatShuffleInnerBound.try_scenario is_min st.spoke (evalf scen)
      = (false, st.spoke) ∧
    XhatShuffleInnerBound.shuffle_step is_min evalf st
      = { cycler := cyc2, spoke := st.spoke } := by
  constructor
  · rw [hinf]
    rfl
  · unfold XhatShuffleInnerBound.shuffle_step
    rw [hnext]
    simp only []
    rw [hinf]
    rfl

/-- C7 witness: a concrete loop state over `["s1","s2"]` with an evaluator
that reports infeasible for every candidate; the tick keeps the spoke
bound state and moves the cycler on. -/
theorem claim7_witness :
    ScenarioCycler.get_next ((ScenarioCycler.init ["s1", "s2"]).get (by decide))
      = (some "s1",
         (ScenarioCycler.get_next ((ScenarioCycler.init ["s1", "s2"]).get (by decide))).2) ∧
    ((fun _ : String => (none : Option ℚ)) "s1" = none) ∧
    (XhatShuffleInnerBound.try_scenario true
        (⟨(ScenarioCycler.init ["s1", "s2"]).get (by decide), ⟨⊤, none⟩⟩ :
          XhatShuffleInnerBound.LoopState).spoke
        ((fun _ : String => (none : Option ℚ)) "s1")
      = (false, ⟨⊤, none⟩) ∧
     XhatShuffleInnerBound.shuffle_step true (fun _ : String => (none : Option ℚ))
        ⟨(ScenarioCycler.init ["s1", "s2"]).get (by decide), ⟨⊤, none⟩⟩
      = ⟨(ScenarioCycler.get_next ((ScenarioCycler.init ["s1", "s2"]).get (by decide))).2,
         ⟨⊤, none⟩⟩) :=
  ⟨by decide, rfl,
   claim7_infeasible_skip true
     ⟨(ScenarioCycler.init ["s1", "s2"]).get (by decide), ⟨⊤, none⟩⟩
     (fun _ : String => (none : Option ℚ)) "s1"
     (ScenarioCycler.get_next ((ScenarioCycler.init ["s1", "s2"]).get (by decide))).2
     (by decide) rfl⟩

/-- C8: one tick of `XhatSpecificInnerBound.main` invokes the evaluator
exactly when `new_nonants` holds — then it evaluates precisely the
pre-declared fixed `xhat_scenario_dict` once and feeds the result to
`update_if_improving` — and on a tick with an unchanged iterate it
performs no evaluation and leaves the spoke state (hence the reported
bound) untouched. -/
theorem claim8_fixed_set_tick (is_min : Bool) (xhat_scenario_dict : String)
    (evalf : String → Option ℚ) (s : XhatShuffleInnerBound.BoundState) :
    XhatSpecificInnerBound.specific_step is_min xhat_scenario_dict evalf true s
      = (XhatSpecificInnerBound.update_if_improving is_min s (evalf xhat_scenario_dict),
         [xhat_scenario_dict]) ∧
    XhatSpecificInnerBound.specific_step is_min xhat_scenario_dict evalf false s
      = (s, []) :=
  ⟨rfl, rfl⟩

/-- C9 (corrected — counterexample): over the one-element order `["A"]`,
the operation sequence `[best read, get_next]` (no epoch reset involved)
leaves the visited-this-epoch set with two elements — the best read adds
the initial pinned best `None`, which is not a candidate — exceeding the
order's size 1, so the claimed bound `|visited| ≤ |order|` is false. -/
theorem claim9_counterexample :
    1 < (ScenarioCycler.runOps ((ScenarioCycler.init ["A"]).get (by decide))
        [ScenarioCycler.Op.readBest, ScenarioCycler.Op.getNext]).scenarios_this_epoch.card ∧
    (["A"] : List String).length = 1 := by
  decide

/-- C9 (amended): for every sequence of `ScenarioCycler` operations
starting from construction, the cursor always satisfies
`0 ≤ cursor < |order|` (it wraps modulo the order's size), and the
candidates of the order present in the visited-this-epoch set never
exceed the order's size; the visited set may additionally contain
pinned-best entries added by `best` reads (initially `None`, or whatever
was last written), which need not be candidates. -/
theorem claim9_amended_invariant (l : List String) (s0 : ScenarioCycler.State)
    (h0 : ScenarioCycler.init l = some s0) (ops : List ScenarioCycler.Op) :
    (ScenarioCycler.runOps s0 ops).cycle_idx
      < (ScenarioCycler.runOps s0 ops).num_scenarios ∧
    (ScenarioCycler.runOps s0 ops).num_scenarios = l.length ∧
    ((ScenarioCycler.runOps s0 ops).scenarios_this_epoch
        ∩ (l.toFinset.image some)).card ≤ l.length := by
  have hwf := ScenarioCycler.runOps_wf (ScenarioCycler.init_wf h0) ops
  have hall : (ScenarioCycler.runOps s0 ops).all_scenario_list = l := by
    rw [ScenarioCycler.runOps_all_list, ScenarioCycler.init_all_list h0]
  refine ⟨hwf.2.2.1, by rw [hwf.1, hall], ?_⟩
  calc ((ScenarioCycler.runOps s0 ops).scenarios_this_epoch
          ∩ (l.toFinset.image some)).card
      ≤ (l.toFinset.image some).card :=
        Finset.card_le_card Finset.inter_subset_right
    _ ≤ l.toFinset.card := Finset.card_image_le
    _ ≤ l.length := l.toFinset_card_le

/-- C9 witness: instantiated over the order `["A","B"]` after a single
`get_next()`. -/
theorem claim9_witness :
    ScenarioCycler.init ["A", "B"] = some ((ScenarioCycler.init ["A", "B"]).get (by decide)) ∧
    ((ScenarioCycler.runOps ((ScenarioCycler.init ["A", "B"]).get (by decide))
        [ScenarioCycler.Op.getNext]).cycle_idx
      < (ScenarioCycler.runOps ((ScenarioCycler.init ["A", "B"]).get (by decide))
        [ScenarioCycler.Op.getNext]).num_scenarios ∧
     (ScenarioCycler.runOps ((ScenarioCycler.init ["A", "B"]).get (by decide))
        [ScenarioCycler.Op.getNext]).num_scenarios = (["A", "B"] : List String).length ∧
     ((ScenarioCycler.runOps ((ScenarioCycler.init ["A", "B"]).get (by decide))
        [ScenarioCycler.Op.getNext]).scenarios_this_epoch
        ∩ ((["A", "B"] : List String).toFinset.image some)).card
       ≤ (["A", "B"] : List String).length) :=
  ⟨by decide,
   claim9_amended_invariant ["A", "B"] ((ScenarioCycler.init ["A", "B"]).get (by decide))
     (by decide) [ScenarioCycler.Op.getNext]⟩

/-- C10: `ScenarioCycler` requires a non-empty candidate list:
construction over the empty list fails (the `all_scenario_list[0]` access),
while over any non-empty list construction succeeds in a well-formed
state, well-formedness (positive length — so `_iter_scen`'s modulo is
never by zero — and an in-bounds cursor, so the list access of
`_iter_scen` never leaves the list) is preserved by every operation
sequence. -/
theorem claim10_nonempty_precondition :
    ScenarioCycler.init [] = none ∧
    (∀ l : List String, l ≠ [] →
      ∃ s0, ScenarioCycler.init l = some s0 ∧ ScenarioCycler.WF s0) ∧
    (∀ (s : ScenarioCycler.State) (ops : List ScenarioCycler.Op),
      ScenarioCycler.WF s → ScenarioCycler.WF (ScenarioCycler.runOps s ops)) ∧
    (∀ s : ScenarioCycler.State, ScenarioCycler.WF s →
      0 < s.num_scenarios ∧
      (s.cycle_idx + 1) % s.num_scenarios < s.all_scenario_list.length) := by
  refine ⟨rfl, ?_, fun s ops h => ScenarioCycler.runOps_wf h ops,
    fun s h => ⟨h.2.1, ?_⟩⟩
  · intro l hl
    cases l with
    | nil => exact absurd rfl hl
    | cons x xs => exact ⟨_, rfl, ScenarioCycler.init_wf (l := x :: xs) rfl⟩
  · rw [← h.1]
    exact Nat.mod_lt _ h.2.1

/-- C10 witness: construction over the non-empty list `["X"]` succeeds in
a well-formed state. -/
theorem claim10_witness :
    (["X"] : List String) ≠ [] ∧
    (∃ s0, ScenarioCycler.init ["X"] = some s0 ∧ ScenarioCycler.WF s0) :=
  ⟨by decide, claim10_nonempty_precondition.2.1 ["X"] (by decide)⟩
